import Mathlib

/-!
Verification development for the `infoservant` repository
(`src/infoservant/infoservant_impl.py`).

The Python code is shallowly embedded: Python strings become `List Char`
(`PyStr`), message dicts become the `Message` structure, Python exceptions
become the `PyError` inductive carried in `Except`, and every external
effect (OpenAI chat completions, `webpage2content` page fetches, SerpApi
searches, stdout) is modelled by explicit state passing through the `St`
structure, whose stream fields list the successive results the external
collaborators will produce.  Mutation of a caller-supplied Python list is
modelled by returning the caller-visible post-state of that list.
-/

namespace Infoservant

/-- Python strings are modelled as lists of characters. -/
abbrev PyStr := List Char

/-- Shorthand converting a Lean string literal to the `PyStr` model. -/
def toL (s : String) : PyStr := s.toList

/-- Whitespace test used by Python `str.strip`.  Python strips all Unicode
whitespace; every string manipulated by this program is ASCII, so the ASCII
whitespace set is used. -/
def pyIsSpace (c : Char) : Bool :=
  c = ' ' || c = '\t' || c = '\n' || c = '\r' || c = '\x0b' || c = '\x0c'

/-- Left part of Python `str.strip`: drop leading whitespace. -/
def pyStripLeft (s : PyStr) : PyStr := s.dropWhile pyIsSpace

/-- Right part of Python `str.strip`: drop trailing whitespace. -/
def pyStripRight (s : PyStr) : PyStr := (s.reverse.dropWhile pyIsSpace).reverse

/-- Python `str.strip()` with no arguments. -/
def pyStrip (s : PyStr) : PyStr := pyStripRight (pyStripLeft s)

/-- Test whether `pat` occurs at the start of `s` (helper for substring
search; mirrors the scanning Python does for `in` and `split`). -/
def pyStarts : PyStr → PyStr → Bool
  | [], _ => true
  | _ :: _, [] => false
  | p :: pt, c :: ct => p == c && pyStarts pt ct

/-- Find the first occurrence of `sep` in `s`; return the part before it and
the part after it.  `none` when `sep` does not occur. -/
def findSplit (sep : PyStr) : PyStr → Option (PyStr × PyStr)
  | [] => if pyStarts sep [] then some ([], []) else none
  | c :: rest =>
    if pyStarts sep (c :: rest) then some ([], (c :: rest).drop sep.length)
    else (findSplit sep rest).map fun p => (c :: p.1, p.2)

/-- Python `pat in s` for strings: substring containment. -/
def pyContains (sep s : PyStr) : Bool := (findSplit sep s).isSome

/-- Helper for Python `str.split(sep)`: repeatedly split at occurrences of
`sep`, with fuel bounding the recursion (each step strictly shrinks the
remainder whenever `sep` is nonempty, so `s.length` fuel is enough). -/
def pySplitAux (sep : PyStr) : PyStr → Nat → List PyStr
  | s, 0 => [s]
  | s, fuel + 1 =>
    match findSplit sep s with
    | none => [s]
    | some (a, b) => a :: pySplitAux sep b fuel

/-- Python `s.split(sep)` (unbounded maxsplit, nonempty `sep`). -/
def pySplit (sep s : PyStr) : List PyStr := pySplitAux sep s s.length

/-- Python `s.split(sep, maxsplit=1)` (nonempty `sep`). -/
def pySplit1 (sep s : PyStr) : List PyStr :=
  match findSplit sep s with
  | none => [s]
  | some (a, b) => [a, b]

/-- Python `str.upper()`.  The program only uppercases ASCII model replies,
so ASCII uppercasing is used. -/
def pyUpper (s : PyStr) : PyStr := s.map Char.toUpper

/-- Conversation message: a Python dict with a role key and a content key. -/
structure Message where
  role : String
  content : PyStr
deriving DecidableEq, Repr

/-- Python exceptions raised (or propagated) by the program. -/
inductive PyError where
  | valueError (msg : String)
  | runtimeError (msg : String)
  | typeError (msg : String)
  | keyError (msg : String)
  | indexError (msg : String)
  | attributeError (msg : String)
  | endpointError (msg : String)
deriving DecidableEq, Repr

/-- JSON value, as produced by `json.loads` / consumed by `json.dumps`. -/
inductive JVal where
  | str (s : PyStr)
  | num (n : Int)
  | bool (b : Bool)
  | null
  | arr (items : List JVal)
  | obj (fields : List (String × JVal))
deriving Repr

mutual

/-- Equality test on JSON values (Python `==` on `json.loads` output). -/
def jBeq : JVal → JVal → Bool
  | JVal.str a, JVal.str b => a == b
  | JVal.num a, JVal.num b => a == b
  | JVal.bool a, JVal.bool b => a == b
  | JVal.null, JVal.null => true
  | JVal.arr a, JVal.arr b => jBeqList a b
  | JVal.obj a, JVal.obj b => jBeqObj a b
  | _, _ => false

/-- Elementwise equality of JSON lists. -/
def jBeqList : List JVal → List JVal → Bool
  | [], [] => true
  | a :: as', b :: bs' => jBeq a b && jBeqList as' bs'
  | _, _ => false

/-- Entrywise equality of JSON objects. -/
def jBeqObj : List (String × JVal) → List (String × JVal) → Bool
  | [], [] => true
  | (ka, va) :: as', (kb, vb) :: bs' => ka == kb && jBeq va vb && jBeqObj as' bs'
  | _, _ => false

end

/-- Python dict model: association list with unique keys kept in insertion
order. -/
abbrev Jobj := List (String × JVal)

/-- One reply of the chat-completions endpoint: the message content and the
`finish_reason` classifier. -/
structure Completion where
  content : PyStr
  finish_reason : String
deriving DecidableEq, Repr

/-- External-world state threaded through the embedding.  Each stream field
lists, in order, the results the corresponding collaborator will return for
successive calls; `stdout` collects printed lines. -/
structure St where
  chat : List (Except PyError Completion)
  chatJson : List (Except PyError JVal)
  fetches : List (Except PyError PyStr)
  searches : List (Except PyError Jobj)
  stdout : List PyStr
deriving Repr

/-- Pop the next response from a collaborator stream.  An exhausted stream
is modelled as the endpoint failing, which is one of the failures the real
endpoint can produce at any call. -/
def popStream {α : Type} (st : List (Except PyError α)) :
    Except PyError α × List (Except PyError α) :=
  match st with
  | [] => (Except.error (PyError.endpointError "no response"), [])
  | r :: rest => (r, rest)

/-- Fixed notice `_call_gpt` appends when the endpoint reports
`finish_reason == "length"` (source lines 97-100). -/
def truncationNotice : PyStr :=
  toL ("\n\n...(There is more material to cover, but this response is already "
    ++ "excessively lengthy. As such, I have to stop here for now.)")

/-- Reply post-processing of `_call_gpt` (source lines 91-102): append the
truncation notice when the stop reason is `"length"`, then strip. -/
def gptAnswer (completion : Completion) : PyStr :=
  let answer := completion.content
  let answer :=
    if completion.finish_reason = "length" then answer ++ truncationNotice
    else answer
  pyStrip answer

/-- Core of `_call_gpt` (source lines 70-110) on an already-normalized
conversation list.  The debug log line evaluates `conversation[-1]`, which
raises `IndexError` on an empty list before any endpoint call; otherwise one
completion request is issued, the processed answer is appended to the
conversation as an assistant message, and the answer is returned.  The
second component is the caller-visible post-state of the conversation list
(Python mutates it in place). -/
def callGptList (conv : List Message) (st : St) :
    Except PyError PyStr × List Message × St :=
  match conv.getLast? with
  | none => (Except.error (PyError.indexError "list index out of range"), conv, st)
  | some _ =>
    let (resp, chat') := popStream st.chat
    let st' : St := { st with chat := chat' }
    match resp with
    | Except.error e => (Except.error e, conv, st')
    | Except.ok completion =>
      let answer := gptAnswer completion
      (Except.ok answer, conv ++ [{ role := "assistant", content := answer }], st')

/-- Argument forms accepted by `_call_gpt`: a bare string, a single message
dict, or a message list. -/
inductive ConvInput where
  | str (s : PyStr)
  | msg (m : Message)
  | list (l : List Message)
deriving DecidableEq, Repr

/-- Input normalization of `_call_gpt` (source lines 74-77). -/
def normalizeConversation : ConvInput → List Message
  | ConvInput.str s => [{ role := "user", content := s }]
  | ConvInput.msg m => [m]
  | ConvInput.list l => l

/-- Full `_call_gpt`: normalize, then run the core.  For a list input the
second component is the caller-visible post-state of the caller's list. -/
def callGpt (conversation : ConvInput) (st : St) :
    Except PyError PyStr × List Message × St :=
  callGptList (normalizeConversation conversation) st

/-- Sentinel `"ANSWER:"` searched for in model replies. -/
def ansSentinel : PyStr := toL "ANSWER:"

/-- Word `"YES"` searched for after the answer sentinel. -/
def yesWord : PyStr := toL "YES"

/-- Sentinel `"REPHRASE:"` searched for in the rephrase reply. -/
def rephraseSentinel : PyStr := toL "REPHRASE:"

/-- Intelligibility prompt of `_sanitycheck_user_command`
(source lines 122-134). -/
def intelligiblePrompt : String :=
  "The first thing we need to do is sanity-check the user's request/command. "
    ++ "It might've gotten mangled in transmission, or misparsed, or perhaps the "
    ++ "user accidentally pasted binary data into the text field or something. "
    ++ "As such, answer the following question: Is the user's request an intelligible "
    ++ "set of words or symbols that could be reasonably interpreted as either a "
    ++ "natural language request or a web query?\n"
    ++ "\n"
    ++ "Discuss whether or not the user's input is intelligible. Provide arguments "
    ++ "both pro and con. When you're done, then, on its own line, "
    ++ "write the word \"ANSWER: \", just like that, in all caps, followed by either YES "
    ++ "or NO. "

/-- Appropriateness prompt of `_sanitycheck_user_command`
(source lines 154-169). -/
def appropriatePrompt : String :=
  "Next, let's make sure that the user's command is appropriate "
    ++ "given your operational parameters as a text-browsing bot."
    ++ "- Can the command be interpreted as a request to access some kind of information "
    ++ "on the web? Maybe it's a URL, maybe it's search terms, maybe it's a question that "
    ++ "requires web access in order to answer?\n"
    ++ "- Does the request require you to do anything outside of your scope? E.g. do they "
    ++ "want you to execute code, solve logic problems, perform extensive calculations, or "
    ++ "otherwise do things that are outside the scope of your directive as a bot that "
    ++ "drives a text-based web browser?\n"
    ++ "- Does the user seem to misunderstand what you are and what your purpose is?\n"
    ++ "\n"
    ++ "Discuss whether or not the user's input is appropriate. Provide arguments "
    ++ "both pro and con. When you're done, then, on its own line, "
    ++ "write the word \"ANSWER: \", just like that, in all caps, followed by either YES "
    ++ "or NO. "

/-- Rephrase prompt of `_sanitycheck_user_command` (source lines 190-211). -/
def rephrasePrompt : String :=
  "You've found the user's command to be inappropriate. Instead of rejecting it "
    ++ "outright, let's give the user the benefit of the doubt and assume that they're "
    ++ "just looking for information or conducting research. Think of ways to reframe, "
    ++ "rephrase, or reinterpret the user's request in a way that would make it "
    ++ "more appropriate for you. For example, if the user was asking you to perform "
    ++ "a complex task, then maybe what they really want is to look up instructions to "
    ++ "perform that task themselves?\n"
    ++ "\n"
    ++ "Brainstorm some ways to rephrase the user's request into something you can "
    ++ "handle. Once you've evaluated this matter, on its own line, emit the word "
    ++ "\"REPHRASE:\", just like that, in all caps, with the colon. After \"REPHRASE:\", "
    ++ "write the rephrased query, or \"N/A\" if you've determined "
    ++ "that the user's inquiry can't be rephrased into something you can act on.\n"
    ++ "\n"
    ++ "Remember that you are rephrasing *for yourself*, not for the user. The user "
    ++ "will never see this rephrase. This rephrase is simply part of your own "
    ++ "chain-of-thought process.\n"
    ++ "\n"
    ++ "Don't say anything else after your rephrase. I'll be passing your output "
    ++ "through a parser, splitting on the string \"REPHRASE:\", so it's important "
    ++ "that, once you emit the rephrase, you then stay quiet."

/-- Duration prompt of `_estimate_reasonable_time` (source lines 237-253). -/
def durationPrompt : String :=
  "Think about the complexity and intricacy of the user's command or request, and "
    ++ "how much detail and inference they'll want in their response. Based on these "
    ++ "factors, how quickly do you think the user can reasonably expect an answer? "
    ++ "On the one hand, if the user is expecting nothing more than the full text of "
    ++ "some web page as-is, then there's no reason to keep them waiting for more than "
    ++ "a few seconds at most. On the other hand, if they want extensive research on a "
    ++ "complex topic, then it's not unreasonable for them to accept that you might "
    ++ "need at least several minutes to browse a large number of sources and "
    ++ "investigate the topic in depth.\n"
    ++ "\n"
    ++ "Discuss the complexity of the user's request and formulate a reasonable "
    ++ "ballpark expectation for the duration that it might take you to execute this "
    ++ "command. When you're done, then, on its own line, emit the word \"ANSWER:\", "
    ++ "just like that, in all caps followed by a colon. Then, after the colon, "
    ++ "on the same line, write the time duration that you've come up with."

/-- Body of `_sanitycheck_user_command` (source lines 113-224), acting on the
deep copy of `convo_intro`.  Returns the rephrase result (or the raised
exception) and the post-state of the external world. -/
def sanitycheckBody (convoIntro : List Message) (st : St) :
    Except PyError PyStr × St :=
  let conversation := convoIntro
  let conversation := conversation ++ [{ role := "user", content := toL intelligiblePrompt }]
  match callGptList conversation st with
  | (Except.error e, _, st) => (Except.error e, st)
  | (Except.ok reply, conversation, st) =>
    let discussIntelligible := pyUpper reply
    if !(pyContains ansSentinel discussIntelligible) then
      (Except.error (PyError.runtimeError "Couldn't determine if command is intelligible"), st)
    else
      let isIntelligible :=
        pyContains yesWord ((pySplit ansSentinel discussIntelligible).getD 1 [])
      if !isIntelligible then
        (Except.error (PyError.valueError "Command isn't intelligible"), st)
      else
        let conversation := conversation ++ [{ role := "user", content := toL appropriatePrompt }]
        match callGptList conversation st with
        | (Except.error e, _, st) => (Except.error e, st)
        | (Except.ok reply2, conversation, st) =>
          let discussAppropriate := pyUpper reply2
          if !(pyContains ansSentinel discussAppropriate) then
            (Except.error (PyError.runtimeError "Couldn't determine if command is appropriate"), st)
          else
            let isAppropriate :=
              pyContains yesWord ((pySplit ansSentinel discussAppropriate).getD 1 [])
            if isAppropriate then
              (Except.ok [], st)
            else
              let conversation := conversation ++ [{ role := "user", content := toL rephrasePrompt }]
              match callGptList conversation st with
              | (Except.error e, _, st) => (Except.error e, st)
              | (Except.ok reply3, _, st) =>
                if !(pyContains rephraseSentinel reply3) then
                  (Except.error (PyError.runtimeError "Couldn't rephrase command into something appropriate"), st)
                else
                  (Except.ok (pyStrip ((pySplit1 rephraseSentinel reply3).getD 1 [])), st)

/-- Full `_sanitycheck_user_command`.  The function deep-copies `convo_intro`
(source line 118) and mutates only the copy, so the caller-visible state of
`convo_intro` — the middle component — is returned unchanged. -/
def sanitycheckUserCommand (convoIntro : List Message) (st : St) :
    Except PyError PyStr × List Message × St :=
  let (res, st') := sanitycheckBody convoIntro st
  (res, convoIntro, st')

/-- Body of `_estimate_reasonable_time` (source lines 227-271), acting on the
deep copy of `convo_intro`. -/
def estimateBody (convoIntro : List Message) (st : St) :
    Except PyError PyStr × St :=
  let conversation := convoIntro
  let conversation := conversation ++ [{ role := "user", content := toL durationPrompt }]
  match callGptList conversation st with
  | (Except.error e, _, st) => (Except.error e, st)
  | (Except.ok discussTimedur, _, st) =>
    if !(pyContains ansSentinel discussTimedur) then
      (Except.error (PyError.runtimeError "Couldn't determine a reasonable duration estimate"), st)
    else
      let timedurEst := pyStrip ((pySplit ansSentinel discussTimedur).getD 1 [])
      let timedurEst :=
        if pyContains (toL "\n") timedurEst then (pySplit1 (toL "\n") timedurEst).getD 0 []
        else timedurEst
      (Except.ok timedurEst, st)

/-- Full `_estimate_reasonable_time`.  Like the sanity check, it deep-copies
`convo_intro` (source line 233), so the caller-visible state of `convo_intro`
is returned unchanged.  The `seconds_permitted` parameter is accepted but
never read by the source body. -/
def estimateReasonableTime (convoIntro : List Message) (st : St)
    (seconds_permitted : Int) : Except PyError PyStr × List Message × St :=
  let _ := seconds_permitted
  let (res, st') := estimateBody convoIntro st
  (res, convoIntro, st')

/-- Python truthiness of a JSON value (`if not x` tests). -/
def pyTruthy : JVal → Bool
  | JVal.str s => !s.isEmpty
  | JVal.num n => n != 0
  | JVal.bool b => b
  | JVal.null => false
  | JVal.arr l => !l.isEmpty
  | JVal.obj f => !f.isEmpty

/-- Python truthiness of a `dict.get` result (`None` is falsy). -/
def pyTruthyOpt : Option JVal → Bool
  | none => false
  | some v => pyTruthy v

/-- Python `d.get(k)` on a dict. -/
def dictGet (d : Jobj) (k : String) : Option JVal :=
  (d.find? (fun p => p.1 == k)).map (fun p => p.2)

/-- Python `d[k] = v` on a dict: replace in place when the key exists,
append otherwise. -/
def dictSet : Jobj → String → JVal → Jobj
  | [], k, v => [(k, v)]
  | (k', v') :: rest, k, v =>
    if k' == k then (k, v) :: rest else (k', v') :: dictSet rest k v

/-- Python `del d[k]` on a dict (call sites guard on key presence). -/
def dictDel (d : Jobj) (k : String) : Jobj :=
  d.filter (fun p => !(p.1 == k))

/-- Python `x == "lit"` where `x` came out of JSON-derived data: true exactly
for the equal string. -/
def jOptEqStr (v : Option JVal) (s : String) : Bool :=
  match v with
  | some (JVal.str t) => t == toL s
  | _ => false

/-- Python `x == True` where `x` came out of JSON-derived data.  Python also
equates `1 == True`, hence the numeric case. -/
def jOptEqTrue : Option JVal → Bool
  | some (JVal.bool b) => b
  | some (JVal.num n) => n == 1
  | _ => false

/-- Lowercase hex digit. -/
def hexDigit (n : Nat) : Char :=
  if n < 10 then Char.ofNat ('0'.toNat + n) else Char.ofNat ('a'.toNat + n - 10)

/-- Four lowercase hex digits, as in JSON `\u` escapes. -/
def hex4 (n : Nat) : PyStr :=
  [hexDigit (n / 4096 % 16), hexDigit (n / 256 % 16), hexDigit (n / 16 % 16), hexDigit (n % 16)]

/-- JSON escaping of one character, as `json.dumps` does with its default
`ensure_ascii=True` (astral characters, which Python encodes as surrogate
pairs, do not occur in this program's data). -/
def jEscChar (c : Char) : PyStr :=
  if c = '"' then ['\\', '"']
  else if c = '\\' then ['\\', '\\']
  else if c = '\n' then ['\\', 'n']
  else if c = '\t' then ['\\', 't']
  else if c = '\r' then ['\\', 'r']
  else if c = '\x08' then ['\\', 'b']
  else if c = '\x0c' then ['\\', 'f']
  else if c.toNat < 0x20 || c.toNat > 0x7e then '\\' :: 'u' :: hex4 (c.toNat % 65536)
  else [c]

/-- JSON string literal rendering. -/
def jString (s : PyStr) : PyStr := '"' :: (s.map jEscChar).flatten ++ ['"']

/-- Indentation for `json.dumps(..., indent=2)` at nesting level `n`. -/
def indentStr (n : Nat) : PyStr := List.replicate (2 * n) ' '

mutual

/-- Rendering of `json.dumps(v, indent=2)` at nesting level `lvl`. -/
def jDumpsV (lvl : Nat) (v : JVal) : PyStr :=
  match v with
  | JVal.str s => jString s
  | JVal.num n => toL (toString n)
  | JVal.bool b => toL (if b then "true" else "false")
  | JVal.null => toL "null"
  | JVal.arr [] => toL "[]"
  | JVal.arr (x :: xs) =>
    '[' :: '\n' :: (jItemsArr (lvl + 1) x xs ++ '\n' :: indentStr lvl ++ [']'])
  | JVal.obj [] => ['\x7b', '\x7d']
  | JVal.obj (f :: fs) =>
    '\x7b' :: '\n' :: (jItemsObj (lvl + 1) f fs ++ '\n' :: indentStr lvl ++ ['\x7d'])
termination_by sizeOf v

/-- Comma-and-newline separated array items of `json.dumps(..., indent=2)`. -/
def jItemsArr (lvl : Nat) (x : JVal) (xs : List JVal) : PyStr :=
  match xs with
  | [] => indentStr lvl ++ jDumpsV lvl x
  | y :: ys => indentStr lvl ++ jDumpsV lvl x ++ ',' :: '\n' :: jItemsArr lvl y ys
termination_by sizeOf x + sizeOf xs

/-- Comma-and-newline separated object entries of `json.dumps(..., indent=2)`. -/
def jItemsObj (lvl : Nat) (f : String × JVal) (fs : List (String × JVal)) : PyStr :=
  match f, fs with
  | (k, v), [] => indentStr lvl ++ jString (toL k) ++ ':' :: ' ' :: jDumpsV lvl v
  | (k, v), g :: gs =>
    indentStr lvl ++ jString (toL k) ++ ':' :: ' ' :: jDumpsV lvl v
      ++ ',' :: '\n' :: jItemsObj lvl g gs
termination_by sizeOf f + sizeOf fs

end

/-- Python `json.dumps(v, indent=2)`. -/
def jDumps (v : JVal) : PyStr := jDumpsV 0 v

/-- Python `json.dumps(v, indent=2)` where `v` may be `None`. -/
def jDumpsOpt : Option JVal → PyStr
  | none => toL "null"
  | some v => jDumps v

/-- Python `str(x)` on JSON-derived data, as interpolated by f-strings.  The
reachable call sites only format strings, numbers, booleans and `None`;
containers are rendered via the JSON printer as an approximation of `repr`. -/
def pyStrOf : JVal → PyStr
  | JVal.str s => s
  | JVal.num n => toL (toString n)
  | JVal.bool b => toL (if b then "True" else "False")
  | JVal.null => toL "None"
  | v => jDumpsV 0 v

/-- Python `str(x)` where `x` may be `None`. -/
def pyStrOfOpt : Option JVal → PyStr
  | none => toL "None"
  | some v => pyStrOf v

/-- Message of a raised exception, as Python's `str(ex)` renders it. -/
def pyErrStr : PyError → PyStr
  | PyError.valueError m => toL m
  | PyError.runtimeError m => toL m
  | PyError.typeError m => toL m
  | PyError.keyError m => toL m
  | PyError.indexError m => toL m
  | PyError.attributeError m => toL m
  | PyError.endpointError m => toL m

/-- Fields removed from SerpApi results (source lines 316-325). -/
def CLEANUP_FIELDS : List String :=
  ["pagination", "serpapi_pagination", "filters", "search_metadata",
   "search_parameters_xxxxxx", "search_information", "knowledge_graph",
   "inline_videos"]

/-- Embedding of `_run_one_research_task` (source lines 274-333).  The task
dict is threaded explicitly (Python mutates it in place); the `Bool` is the
function's return value.  Collaborator failures come out of the `fetches` /
`searches` streams as `Except.error` and are caught exactly where the
source's `try/except` blocks catch them, so no exception escapes. -/
def runOneResearchTask (task : Jobj) (st : St) : Jobj × Bool × St :=
  let task_type := dictGet task "task_type"
  if jOptEqStr task_type "url" then
    let url := dictGet task "url"
    if !(pyTruthyOpt url) then
      let task := dictSet task "success" (JVal.bool false)
      let task := dictSet task "error" (JVal.str (toL "URL not provided"))
      (task, false, st)
    else
      let (resp, fetches') := popStream st.fetches
      let st := { st with fetches := fetches' }
      match resp with
      | Except.error ex =>
        let task := dictSet task "success" (JVal.bool false)
        let task := dictSet task "error" (JVal.str
          (toL "Exception while fetching url " ++ pyStrOfOpt url ++ toL ": " ++ pyErrStr ex))
        (task, false, st)
      | Except.ok result =>
        if result.isEmpty then
          let task := dictSet task "success" (JVal.bool false)
          let task := dictSet task "error" (JVal.str
            (toL "Fetch of " ++ pyStrOfOpt url ++ toL " produced empty/invalid result"))
          (task, false, st)
        else
          let task := dictSet task "success" (JVal.bool true)
          let task := dictSet task "result" (JVal.str result)
          (task, true, st)
  else if jOptEqStr task_type "serpapi_call" then
    let serpapi_params := dictGet task "params"
    if !(pyTruthyOpt serpapi_params) then
      let task := dictSet task "success" (JVal.bool false)
      let task := dictSet task "error" (JVal.str (toL "SerpApi params not provided"))
      (task, false, st)
    else
      let (resp, searches') := popStream st.searches
      let st := { st with searches := searches' }
      match resp with
      | Except.error ex =>
        let task := dictSet task "success" (JVal.bool false)
        let task := dictSet task "error" (JVal.str
          (toL "Exception while performing SerpApi query: " ++ pyErrStr ex))
        (task, false, st)
      | Except.ok result =>
        let result := CLEANUP_FIELDS.foldl
          (fun d field => if (dictGet d field).isSome then dictDel d field else d) result
        let task := dictSet task "success" (JVal.bool true)
        let task := dictSet task "result" (JVal.str (jDumps (JVal.obj result)))
        (task, true, st)
  else
    (task, false, st)

/-- Message built by `_task_results_to_conversation_messages` for one task
(source lines 339-362). -/
def taskResultMessage (task : Jobj) : Message :=
  let task_type := dictGet task "task_type"
  let task_success := jOptEqTrue (dictGet task "success")
  let task_result := dictGet task "result"
  let task_error := dictGet task "error"
  let message : PyStr :=
    if jOptEqStr task_type "url" then
      toL "You browsed URL: " ++ pyStrOfOpt (dictGet task "url") ++ toL "\n"
    else if jOptEqStr task_type "serpapi_call" then
      toL "You called SerpApi with these parameters:\n"
        ++ jDumpsOpt (dictGet task "params") ++ toL "\n"
    else
      []
  let message :=
    if !task_success then
      message ++ toL "The call failed with the following error:\n" ++ pyStrOfOpt task_error
    else
      message ++ toL "The call succeeded with the following results:\n\n---\n\n"
        ++ pyStrOfOpt task_result
  { role := "system", content := message }

/-- Embedding of `_task_results_to_conversation_messages`
(source lines 336-364). -/
def taskResultsToConversationMessages (tasks : List Jobj) : List Message :=
  tasks.map taskResultMessage

/-- Embedding of the dead helper `_summarize_progress_so_far`
(source lines 367-371). -/
def summarizeProgressSoFar (conversation : List Message) : List Message :=
  conversation ++ [{ role := "system", content := toL "Write a " }]

/-- Outcome of a Python call: normal return, a propagating exception, or
process exit (`exit(0)` raising `SystemExit`). -/
inductive Outcome (α : Type) where
  | ok (a : α)
  | raised (e : PyError)
  | exited (code : Nat)
deriving DecidableEq, Repr

/-- Embedding of `_create_system_prompt` (source lines 34-67). -/
def createSystemPrompt (has_serpapi : Bool) : String :=
  let s :=
    "You're a web browsing bot called infoservant: an AI that browses text content on "
      ++ "the web. You can conduct deep-dives if needed. You were built for the purpose of "
      ++ "easily integrating intelligent web researching into any project.\n"
      ++ "\n"
      ++ "The user will tell you an instruction or request that involves accessing the web. "
      ++ "You will decide how to use your browsing capabilities to fulfill the user's needs.\n"
      ++ "\n"
      ++ "You have the following abilities:\n"
      ++ "- Given a URL, you can read the text content of the web page. You can return these "
      ++ "contents to the user if they wish, or you can summarize or discuss them as needed.\n"
  let s :=
    if has_serpapi then
      s ++ ("- You can access Google Search using the SerpApi library, "
        ++ "i.e. serpapi.GoogleSearch(params). With the right params, if you know how to use "
        ++ "the API, you'll be able to find organic search results, access news, and more.\n")
    else s
  s ++ ("\n"
    ++ "Because your access to the web is done strictly through a non-interactive text browser, "
    ++ "here are some things you cannot do:\n"
    ++ "- See images\n"
    ++ "- Read PDFs\n"
    ++ "- Fill out forms\n"
    ++ "- Press buttons, move sliders, or operate UI widgets of any kind\n"
    ++ "- See text that gets populated through AJAX\n"
    ++ "- Browse the deep web\n"
    ++ "- Many other things\n"
    ++ "Basically, what you **can** do is read publicly available articles, "
    ++ "official \"front page\" web content, and other \"web 1.0\" tasks.")

/-- Embedding of the module constant `JSON_COFFEE_SAMPLE`
(source lines 13-23). -/
def JSON_COFFEE_SAMPLE : Jobj :=
  [("urls_to_visit", JVal.arr
      [JVal.str (toL "http://www.coffee.com"),
       JVal.str (toL "https://wikipedia.com/coffee")]),
   ("serpapi_calls", JVal.arr
      [JVal.obj [("q", JVal.str (toL "history of coffee"))],
       JVal.obj [("q", JVal.str (toL "news about coffee")), ("tbm", JVal.str (toL "nws"))],
       JVal.obj [("q", JVal.str (toL "buy coffee beans")), ("tbm", JVal.str (toL "shop"))]])]

/-- Python `key in v` on JSON-derived data: key membership for dicts,
element membership for lists, substring test for strings, `TypeError`
otherwise. -/
def pyIn (key : String) : JVal → Except PyError Bool
  | JVal.obj fields => Except.ok ((dictGet fields key).isSome)
  | JVal.arr items => Except.ok (items.any (fun v => jBeq v (JVal.str (toL key))))
  | JVal.str s => Except.ok (pyContains (toL key) s)
  | _ => Except.error (PyError.typeError "argument is not iterable")

/-- Python `v[key]` with a string key on JSON-derived data. -/
def jSubscript (v : JVal) (key : String) : Except PyError JVal :=
  match v with
  | JVal.obj fields =>
    match dictGet fields key with
    | some x => Except.ok x
    | none => Except.error (PyError.keyError key)
  | _ => Except.error (PyError.typeError "indices must be integers")

/-- Python `type(v) == list` on JSON-derived data. -/
def jIsList : JVal → Bool
  | JVal.arr _ => true
  | _ => false

/-- Python `item.update` call of `_research_cycle` (source lines 469-476),
merging in the api_key, num, no_cache and output parameters; raises
`AttributeError` when the JSON item is not a dict. -/
def updateSerpItem (serp_api_key : String) (item : JVal) : Except PyError JVal :=
  match item with
  | JVal.obj fields =>
    let fields := dictSet fields "api_key" (JVal.str (toL serp_api_key))
    let fields := dictSet fields "num" (JVal.num 5)
    let fields := dictSet fields "no_cache" (JVal.bool true)
    let fields := dictSet fields "output" (JVal.str (toL "json"))
    Except.ok (JVal.obj fields)
  | _ => Except.error (PyError.attributeError "object has no attribute update")

/-- Loop of `_research_cycle` building the SerpApi tasks
(source lines 468-481). -/
def buildSerpTasks (serp_api_key : String) : List JVal → Except PyError (List Jobj)
  | [] => Except.ok []
  | item :: rest => do
    let item' ← updateSerpItem serp_api_key item
    let tasks ← buildSerpTasks serp_api_key rest
    pure ([("task_type", JVal.str (toL "serpapi_call")), ("params", item')] :: tasks)

/-- Task-list construction of `_research_cycle` from the model's JSON next
steps (source lines 458-481), preserving Python's short-circuit evaluation
of the two guard conditions. -/
def buildTasks (serp_api_key : String) (nextsteps : JVal) :
    Except PyError (List Jobj) := do
  let inUrls ← pyIn "urls_to_visit" nextsteps
  let tasks ←
    if inUrls then do
      let v ← jSubscript nextsteps "urls_to_visit"
      if jIsList v then
        match v with
        | JVal.arr items =>
          pure (items.map (fun item =>
            [("task_type", JVal.str (toL "url")), ("url", item)]))
        | _ => pure ([] : List Jobj)
      else pure ([] : List Jobj)
    else pure ([] : List Jobj)
  if serp_api_key == "" then
    pure tasks
  else do
    let inSerp ← pyIn "serpapi_calls" nextsteps
    if inSerp then do
      let v ← jSubscript nextsteps "serpapi_calls"
      if jIsList v then
        match v with
        | JVal.arr items => do
          let serpTasks ← buildSerpTasks serp_api_key items
          pure (tasks ++ serpTasks)
        | _ => pure tasks
      else pure tasks
    else pure tasks

/-- Serial task-execution loop of `_research_cycle` (source lines 484-488),
threading the collaborator streams. -/
def runTasks : List Jobj → St → List Jobj × St
  | [], st => ([], st)
  | t :: ts, st =>
    let (t', _, st') := runOneResearchTask t st
    let (ts', st'') := runTasks ts st'
    (t' :: ts', st'')

/-- Rendering of a conversation message as a JSON value, for the final
`json.dumps(result_msgs, indent=2)` print. -/
def msgToJVal (m : Message) : JVal :=
  JVal.obj [("role", JVal.str (toL m.role)), ("content", JVal.str m.content)]

/-- Report prompt of `_research_cycle` (source lines 496-506). -/
def reportPrompt : String :=
  "Write a comprehensive report about what you've done so far, what you've learned "
    ++ "from your web browsing, and how it relates to the user's initial command or "
    ++ "inquiry. Note the searches you've conducted (if any), the pages you've visited "
    ++ "(if any), the information you've gathered, and which pages specific important "
    ++ "pieces of information or significant quotes or block-quotes came from. This "
    ++ "report should essentially present a complete \"state dump\", such that, if "
    ++ "someone else were to try to continue this research from where you've left off, "
    ++ "they'll have everything they need to reestablish your current informational "
    ++ "context."

/-- Body of `_research_cycle` (source lines 374-518), acting on the deep
copy of `convo_intro`.  The wall-clock readings (`_chronometer()` and the
formatted `time_spent` float) are environment inputs and are passed in as
the already-formatted strings `chronStr` and `timeSpentStr`.  The direct
`chat.completions.create(..., response_format=json_object)` call and the
`json.loads` of its reply are modelled together by the `chatJson` stream,
whose entries are the parsed JSON values (an entry is an error when either
the endpoint call or the parse fails).  The function prints twice and then
calls `exit(0)`; it never returns normally. -/
def researchCycleBody (convoIntro : List Message) (timeSpentStr chronStr : PyStr)
    (serp_api_key : String) (st : St) : Outcome Unit × St :=
  let conversation := convoIntro
  let chronContent : PyStr :=
    chronStr ++ toL "\n\nYou've been working for " ++ timeSpentStr ++ toL " seconds so far."
  let conversation := conversation ++ [{ role := "system", content := chronContent }]
  let s := ""
  let s := if serp_api_key != "" then "What search queries will you conduct?" else s
  let brainstormContent : PyStr :=
    toL ("From here, list your next actions as a text-browsing web bot. "
      ++ "What URLs will you visit? " ++ s ++ "\n"
      ++ "\n"
      ++ "Don't write any code or JSON yet. Write your output in plain English. "
      ++ "For now, we're just brainstorming.")
  let conversation := conversation ++ [{ role := "system", content := brainstormContent }]
  match callGptList conversation st with
  | (Except.error e, _, st) => (Outcome.raised e, st)
  | (Except.ok _, conversation, st) =>
    let json_sample := JSON_COFFEE_SAMPLE
    let json_sample :=
      if serp_api_key == "" then dictDel json_sample "serpapi_calls" else json_sample
    let instructions_str :=
      toL ("Okay, now emit a JSON structure to express these next steps.\n"
        ++ "\n"
        ++ "The JSON structure will have a field called \"urls_to_visit\", containing a list of "
        ++ "strings representing URLs to visit. Don't order more than 5 such URLS at a time.\n"
        ++ "\n")
    let instructions_str :=
      if serp_api_key != "" then
        instructions_str
          ++ toL ("The JSON structure will also have a field called \"serpapi_calls\", which will have "
            ++ "a list of objects that contain the parameters of SerpApi calls "
            ++ "(using engine=google). Don't worry about the `api_key` field of the SerpApi calls; "
            ++ "the parsing engine will populate it for you as it reads your JSON output. You just "
            ++ "focus on the URLs to visit and the parameters of the SerpApi calls to make. Don't "
            ++ "issue more than 3 SerpApi calls at a time.\n"
            ++ "\n")
      else instructions_str
    let instructions_str :=
      instructions_str
        ++ toL ("Imagine the user asks for information about coffee. Then "
          ++ "the JSON might look something like this:\n\n"
          ++ "```json\n")
        ++ jDumps (JVal.obj json_sample)
        ++ toL "\n```\n"
    let conversation := conversation ++ [{ role := "system", content := instructions_str }]
    let (resp, chatJson') := popStream st.chatJson
    let st := { st with chatJson := chatJson' }
    match resp with
    | Except.error e => (Outcome.raised e, st)
    | Except.ok nextsteps =>
      match buildTasks serp_api_key nextsteps with
      | Except.error e => (Outcome.raised e, st)
      | Except.ok tasks =>
        let (tasks, st) := runTasks tasks st
        let result_msgs := taskResultsToConversationMessages tasks
        let conversation := conversation ++ result_msgs
        let conversation := conversation ++ [{ role := "system", content := toL reportPrompt }]
        match callGptList conversation st with
        | (Except.error e, _, st) => (Outcome.raised e, st)
        | (Except.ok _, conversation, st) =>
          let st := { st with stdout :=
            st.stdout ++ [((conversation.getLast?).map Message.content).getD []] }
          let st := { st with stdout :=
            st.stdout ++ [jDumps (JVal.arr (result_msgs.map msgToJVal))] }
          (Outcome.exited 0, st)

/-- Full `_research_cycle`.  It deep-copies `convo_intro` (source
line 383) and mutates only the copy, so the caller-visible state of
`convo_intro` — the middle component — is returned unchanged.  The
`pages_explored` and `searches_conducted` parameters are accepted but never
read by the source body. -/
def researchCycle (convoIntro : List Message) (timeSpentStr chronStr : PyStr)
    (pages_explored searches_conducted : List Jobj) (serp_api_key : String)
    (st : St) : Outcome Unit × List Message × St :=
  let _ := pages_explored
  let _ := searches_conducted
  let (res, st') := researchCycleBody convoIntro timeSpentStr chronStr serp_api_key st
  (res, convoIntro, st')

/-- Python value passed as the `command` argument of `infoservant`: either a
string or a value of some other type (only its type name matters). -/
inductive PyObj where
  | ofStr (s : PyStr)
  | nonStr (typeName : String)
deriving DecidableEq, Repr

/-- Time-budget message of `infoservant` (source lines 556-562). -/
def secondsMessage (seconds_permitted : Int) : String :=
  "The user believes that you should be able to complete this task "
    ++ "in approximately " ++ toString seconds_permitted ++ " seconds. This time window, "
    ++ "depending on how short or long it is, provides you with some "
    ++ "information about how concise or detailed, respectively, the "
    ++ "user would like your answer to be."

/-- Expectations prompt of `infoservant` (source lines 570-575). -/
def expectationsPrompt : String :=
  "Make some inferences about the user's expectations of you. "
    ++ "What kind of response is the user expecting? "
    ++ "What structure or format of reply would make the user satisfied "
    ++ "with the answer? What's too little, and what's too much?"

/-- Replace the `content` of the message at index `i`, modelling the Python
statement `convo_intro[2]["content"] = command_rephrase` (source line 550;
the call site guarantees the index is in range). -/
def modifyContent (i : Nat) (c : PyStr) : List Message → List Message
  | [] => []
  | m :: rest =>
    match i with
    | 0 => { m with content := c } :: rest
    | j + 1 => m :: modifyContent j c rest

/-- Assistant message recording the duration estimate (source
lines 587-596). -/
def timedurMessage (timedur_est : PyStr) : Message :=
  let content :=
    toL ("Given the scope of the user's request, here is what I believe to "
      ++ "be a reasonable time allotment for spending on this problem: ") ++ timedur_est
  { role := "assistant", content := content }

/-- Continuation of `infoservant` after the sanity-check step (source
lines 552-608): optional time-budget message, expectations exchange,
duration estimate, and the research cycle.  The middle component is the
final state of the local `convo_intro` transcript. -/
def infoservantRest (command : PyStr) (convoIntro : List Message)
    (serp_api_key : String) (seconds_permitted : Int)
    (timeSpentStr chronStr : PyStr) (st : St) :
    Outcome PyStr × List Message × St :=
  let _ := command
  let convoIntro :=
    if seconds_permitted != 0 then
      convoIntro ++ [{ role := "system", content := toL (secondsMessage seconds_permitted) }]
    else convoIntro
  let convoIntro := convoIntro ++ [{ role := "system", content := toL expectationsPrompt }]
  match callGptList convoIntro st with
  | (Except.error e, convoIntro, st) => (Outcome.raised e, convoIntro, st)
  | (Except.ok _, convoIntro, st) =>
    match estimateReasonableTime convoIntro st 0 with
    | (Except.error e, convoIntro, st) => (Outcome.raised e, convoIntro, st)
    | (Except.ok timedur_est, convoIntro, st) =>
      let convoIntro := convoIntro ++ [timedurMessage timedur_est]
      match researchCycle convoIntro timeSpentStr chronStr [] [] serp_api_key st with
      | (Outcome.raised e, convoIntro, st) => (Outcome.raised e, convoIntro, st)
      | (Outcome.exited c, convoIntro, st) => (Outcome.exited c, convoIntro, st)
      | (Outcome.ok _, convoIntro, st) => (Outcome.ok (toL "Hello World"), convoIntro, st)

/-- Transcript built by `infoservant` before the sanity check (source
lines 538-542). -/
def initialConvo (command : PyStr) (serp_api_key : String) : List Message :=
  [{ role := "system", content := toL (createSystemPrompt (serp_api_key != "")) },
   { role := "system", content := toL "The user has issued the following command:" },
   { role := "user", content := command }]

/-- Embedding of `infoservant` (source lines 521-608).  The middle component
is the final state of the local `convo_intro` transcript (at return, raise,
or exit time), exposed so that transcript invariants are statable. -/
def infoservant (command : PyObj) (serp_api_key : String)
    (seconds_permitted : Int) (timeSpentStr chronStr : PyStr) (st : St) :
    Outcome PyStr × List Message × St :=
  match command with
  | PyObj.nonStr typeName =>
    (Outcome.raised (PyError.valueError
      ("command must be a string (got " ++ typeName ++ " instead)")), [], st)
  | PyObj.ofStr command =>
    let command := pyStrip command
    if command.isEmpty then
      (Outcome.raised (PyError.valueError "Got empty string for command"), [], st)
    else
      let command := pyStrip command
      let convo_intro : List Message := initialConvo command serp_api_key
      match sanitycheckUserCommand convo_intro st with
      | (Except.error e, convo_intro, st) => (Outcome.raised e, convo_intro, st)
      | (Except.ok command_rephrase, convo_intro, st) =>
        let command := if !command_rephrase.isEmpty then command_rephrase else command
        let convo_intro :=
          if !command_rephrase.isEmpty then modifyContent 2 command_rephrase convo_intro
          else convo_intro
        infoservantRest command convo_intro serp_api_key seconds_permitted
          timeSpentStr chronStr st

/-! Helper lemmas about the string primitives and the Runner. -/

/-- Head of `dropWhile p` never satisfies `p`. -/
theorem dropWhile_head?_not (p : Char → Bool) :
    ∀ (l : PyStr) (c : Char), (l.dropWhile p).head? = some c → p c = false
  | [], c, h => by simp [List.dropWhile] at h
  | x :: xs, c, h => by
    by_cases hp : p x = true
    · rw [List.dropWhile_cons, if_pos hp] at h
      exact dropWhile_head?_not p xs c h
    · rw [List.dropWhile_cons, if_neg hp] at h
      simp only [List.head?, Option.some.injEq] at h
      rw [← h]
      exact Bool.eq_false_iff.mpr hp

/-- The last element survives `dropWhile`. -/
theorem dropWhile_getLast?_some (p : Char → Bool) (l : PyStr) (c : Char)
    (h : (l.dropWhile p).getLast? = some c) : l.getLast? = some c := by
  obtain ⟨t, ht⟩ := (List.dropWhile_suffix p : l.dropWhile p <:+ l)
  have hne : l.dropWhile p ≠ [] := by
    intro hnil
    rw [hnil] at h
    simp at h
  rw [← ht, List.getLast?_append_of_ne_nil t hne]
  exact h

/-- Right-stripping a list preserves its head. -/
theorem pyStripRight_head?_some (l : PyStr) (c : Char)
    (h : (pyStripRight l).head? = some c) : l.head? = some c := by
  rw [pyStripRight, List.head?_reverse] at h
  have := dropWhile_getLast?_some pyIsSpace l.reverse c h
  rwa [List.getLast?_reverse] at this

/-- The last character of a right-stripped list is not whitespace. -/
theorem pyStripRight_getLast?_not (l : PyStr) (c : Char)
    (h : (pyStripRight l).getLast? = some c) : pyIsSpace c = false := by
  rw [pyStripRight, List.getLast?_reverse] at h
  exact dropWhile_head?_not pyIsSpace l.reverse c h

/-- The first character of a stripped string is not whitespace. -/
theorem pyStrip_head?_not (s : PyStr) (c : Char)
    (h : (pyStrip s).head? = some c) : pyIsSpace c = false := by
  rw [pyStrip] at h
  have h2 : (pyStripLeft s).head? = some c := pyStripRight_head?_some _ c h
  rw [pyStripLeft] at h2
  exact dropWhile_head?_not pyIsSpace s c h2

/-- The last character of a stripped string is not whitespace. -/
theorem pyStrip_getLast?_not (s : PyStr) (c : Char)
    (h : (pyStrip s).getLast? = some c) : pyIsSpace c = false := by
  rw [pyStrip] at h
  exact pyStripRight_getLast?_not _ c h

/-- Left-stripping distributes over an append whose left part contains a
non-whitespace character. -/
theorem pyStripLeft_append_of_nonspace (b : PyStr) :
    ∀ (a : PyStr), (∃ x ∈ a, pyIsSpace x = false) →
      pyStripLeft (a ++ b) = pyStripLeft a ++ b
  | [], h => by
    rcases h with ⟨x, hx, _⟩
    simp at hx
  | y :: ys, h => by
    by_cases hy : pyIsSpace y = true
    · have hys : ∃ x ∈ ys, pyIsSpace x = false := by
        rcases h with ⟨x, hx, hxs⟩
        rcases List.mem_cons.mp hx with hxy | hxm
        · rw [hxy] at hxs
          rw [hy] at hxs
          exact absurd hxs (by simp)
        · exact ⟨x, hxm, hxs⟩
      rw [List.cons_append, pyStripLeft, List.dropWhile_cons, if_pos hy,
        pyStripLeft, List.dropWhile_cons, if_pos hy]
      exact pyStripLeft_append_of_nonspace b ys hys
    · rw [List.cons_append, pyStripLeft, List.dropWhile_cons, if_neg hy,
        pyStripLeft, List.dropWhile_cons, if_neg hy, List.cons_append]

/-- Right-stripping is the identity on an append ending in a non-whitespace
character. -/
theorem pyStripRight_append_notail (a b : PyStr) (c : Char)
    (hb : b.getLast? = some c) (hc : pyIsSpace c = false) :
    pyStripRight (a ++ b) = a ++ b := by
  have hbh : b.reverse.head? = some c := by rw [List.head?_reverse]; exact hb
  obtain ⟨t, ht⟩ : ∃ t, b.reverse = c :: t := by
    cases hbv : b.reverse with
    | nil => rw [hbv] at hbh; simp at hbh
    | cons d ds =>
      rw [hbv] at hbh
      simp only [List.head?, Option.some.injEq] at hbh
      exact ⟨ds, by rw [hbh]⟩
  rw [pyStripRight, List.reverse_append a b, ht, List.cons_append,
    List.dropWhile_cons, if_neg (by simp [hc]), ← List.cons_append, ← ht,
    ← List.reverse_append a b, List.reverse_reverse]

/-- Runner evaluation on a nonempty conversation when the endpoint returns a
completion: one request is consumed, the processed answer is returned and
appended as the assistant message. -/
theorem callGptList_ok (conv : List Message) (c : Completion)
    (rest : List (Except PyError Completion)) (st : St)
    (hconv : conv ≠ []) (hchat : st.chat = Except.ok c :: rest) :
    callGptList conv st
      = (Except.ok (gptAnswer c),
         conv ++ [{ role := "assistant", content := gptAnswer c }],
         { st with chat := rest }) := by
  obtain ⟨x, hx⟩ := Option.isSome_iff_exists.mp (List.getLast?_isSome.mpr hconv)
  simp [callGptList, hx, hchat, popStream]

/-- Runner evaluation on a nonempty conversation when the endpoint raises:
one request is consumed, the error propagates, the conversation is left
unchanged. -/
theorem callGptList_err (conv : List Message) (e : PyError)
    (rest : List (Except PyError Completion)) (st : St)
    (hconv : conv ≠ []) (hchat : st.chat = Except.error e :: rest) :
    callGptList conv st = (Except.error e, conv, { st with chat := rest }) := by
  obtain ⟨x, hx⟩ := Option.isSome_iff_exists.mp (List.getLast?_isSome.mpr hconv)
  simp [callGptList, hx, hchat, popStream]

/-- The Runner only ever extends the conversation list at its end. -/
theorem callGptList_growth (conv : List Message) (st : St) :
    ∃ t, (callGptList conv st).2.1 = conv ++ t := by
  unfold callGptList
  cases hx : conv.getLast? with
  | none => exact ⟨[], by simp⟩
  | some x =>
    rcases hp : popStream st.chat with ⟨resp, chat'⟩
    cases resp with
    | error e => exact ⟨[], by simp [hp]⟩
    | ok completion =>
      exact ⟨[{ role := "assistant", content := gptAnswer completion }], by simp [hp]⟩

/-- External-world state with a given chat stream and all other streams
empty, used to instantiate concrete scenarios. -/
def mkSt (chat : List (Except PyError Completion)) : St :=
  { chat := chat, chatJson := [], fetches := [], searches := [], stdout := [] }

/-! Claim C1. -/

/-- C1 (counterexample): the claim asserts that for a fragment sequence whose
first fragment is length-truncated the Runner issues a second request with a
continuation message and returns the fragments joined by a newline.  On the
spec's own scenario (fragment `"This is a sum"` flagged `length`, fragment
`"mary."` flagged `stop`), `_call_gpt` leaves the second endpoint response
unconsumed — exactly one request is issued — and its reply is not the
newline-join `"This is a sum\nmary."`. -/
theorem claim_C1_counterexample :
    (callGptList [{ role := "user", content := toL "Summarize X." }]
        (mkSt [Except.ok { content := toL "This is a sum", finish_reason := "length" },
               Except.ok { content := toL "mary.", finish_reason := "stop" }])).2.2.chat
      = [Except.ok { content := toL "mary.", finish_reason := "stop" }]
    ∧ (callGptList [{ role := "user", content := toL "Summarize X." }]
        (mkSt [Except.ok { content := toL "This is a sum", finish_reason := "length" },
               Except.ok { content := toL "mary.", finish_reason := "stop" }])).1
      = Except.ok (pyStrip (toL "This is a sum" ++ truncationNotice))
    ∧ pyStrip (toL "This is a sum" ++ truncationNotice) ≠ toL "This is a sum\nmary." :=
  ⟨rfl, rfl, by decide⟩

/-- C1 (amended): one call to `_call_gpt` issues exactly one completion
request regardless of the stop reason; no continuation message is ever
appended; when the single fragment is length-truncated the returned Reply is
that fragment with the fixed truncation notice appended and stripped, and
otherwise it is the fragment stripped. -/
theorem claim_C1 (conv : List Message) (c : Completion)
    (rest : List (Except PyError Completion)) (st : St)
    (hconv : conv ≠ []) (hchat : st.chat = Except.ok c :: rest) :
    callGptList conv st
      = (Except.ok (gptAnswer c),
         conv ++ [{ role := "assistant", content := gptAnswer c }],
         { st with chat := rest })
    ∧ (c.finish_reason = "length" →
        gptAnswer c = pyStrip (c.content ++ truncationNotice))
    ∧ (c.finish_reason ≠ "length" → gptAnswer c = pyStrip c.content) := by
  refine ⟨callGptList_ok conv c rest st hconv hchat, ?_, ?_⟩
  · intro h
    simp [gptAnswer, h]
  · intro h
    simp [gptAnswer, h]

/-- C1 (witness): concrete application of `claim_C1` — after a single
length-truncated fragment the whole endpoint stream beyond the first
response is untouched. -/
theorem claim_C1_witness :
    (callGptList [{ role := "user", content := toL "Summarize X." }]
        (mkSt [Except.ok { content := toL "This is a sum", finish_reason := "length" }])).2.2.chat
      = [] := by
  have h := claim_C1 [{ role := "user", content := toL "Summarize X." }]
    { content := toL "This is a sum", finish_reason := "length" } []
    (mkSt [Except.ok { content := toL "This is a sum", finish_reason := "length" }])
    (by decide) rfl
  rw [h.1]

/-! Claim C2. -/

/-- C2: every normally-returning call to `_call_gpt` returns a Reply with no
leading or trailing whitespace and appends exactly one message to the
caller's conversation list, at its end, with role `"assistant"` and content
equal to the returned Reply. -/
theorem claim_C2 (conv : List Message) (c : Completion)
    (rest : List (Except PyError Completion)) (st : St)
    (hconv : conv ≠ []) (hchat : st.chat = Except.ok c :: rest) :
    ∃ reply,
      (callGptList conv st).1 = Except.ok reply
      ∧ (callGptList conv st).2.1 = conv ++ [{ role := "assistant", content := reply }]
      ∧ (∀ ch, reply.head? = some ch → pyIsSpace ch = false)
      ∧ (∀ ch, reply.getLast? = some ch → pyIsSpace ch = false) := by
  refine ⟨gptAnswer c, ?_, ?_, ?_, ?_⟩
  · rw [callGptList_ok conv c rest st hconv hchat]
  · rw [callGptList_ok conv c rest st hconv hchat]
  · intro ch h
    simp only [gptAnswer] at h
    exact pyStrip_head?_not _ ch h
  · intro ch h
    simp only [gptAnswer] at h
    exact pyStrip_getLast?_not _ ch h

/-- C2 (witness): concrete application of `claim_C2` — a reply
`"  hello \n"` comes back trimmed to `"hello"` and appended as the assistant
message. -/
theorem claim_C2_witness :
    (callGptList [{ role := "user", content := toL "hi" }]
        (mkSt [Except.ok { content := toL "  hello \n", finish_reason := "stop" }])).2.1
      = [{ role := "user", content := toL "hi" },
         { role := "assistant", content := toL "hello" }] := by
  obtain ⟨reply, h1, h2, h3, h4⟩ := claim_C2 [{ role := "user", content := toL "hi" }]
    { content := toL "  hello \n", finish_reason := "stop" } []
    (mkSt [Except.ok { content := toL "  hello \n", finish_reason := "stop" }])
    (by decide) rfl
  have hok : (Except.ok (toL "hello") : Except PyError PyStr) = Except.ok reply := by
    rw [← h1]
    rfl
  have hr : toL "hello" = reply := Except.ok.inj hok
  rw [h2, ← hr]
  rfl

/-! Claim C3. -/

/-- C3 (counterexample): the claim asserts that a conversation list passed
to `_call_gpt` is unchanged when the call returns.  On a concrete
one-message conversation with a successful endpoint response, the
caller-visible list has gained an assistant message. -/
theorem claim_C3_counterexample :
    (callGptList [{ role := "user", content := toL "hi" }]
        (mkSt [Except.ok { content := toL "yo", finish_reason := "stop" }])).2.1
      ≠ [{ role := "user", content := toL "hi" }] := by decide

/-- C3 (amended): the transcripts passed as `convo_intro` to
`_sanitycheck_user_command`, `_estimate_reasonable_time` and
`_research_cycle` are deep-copied and therefore unchanged when the call
returns; `_call_gpt`, by contrast, appends its assistant message directly to
the caller's list (see the counterexample). -/
theorem claim_C3 (convoIntro : List Message) (st : St)
    (timeSpentStr chronStr : PyStr) (pages searches : List Jobj)
    (serp : String) (secs : Int) :
    (sanitycheckUserCommand convoIntro st).2.1 = convoIntro
    ∧ (estimateReasonableTime convoIntro st secs).2.1 = convoIntro
    ∧ (researchCycle convoIntro timeSpentStr chronStr pages searches serp st).2.1
        = convoIntro := by
  refine ⟨?_, ?_, ?_⟩
  · rcases h : sanitycheckBody convoIntro st with ⟨res, st'⟩
    simp [sanitycheckUserCommand, h]
  · rcases h : estimateBody convoIntro st with ⟨res, st'⟩
    simp [estimateReasonableTime, h]
  · rcases h : researchCycleBody convoIntro timeSpentStr chronStr serp st with ⟨res, st'⟩
    simp [researchCycle, h]

/-! Claim C5. -/

/-- C5: when the endpoint call raises, `_call_gpt` propagates that very
exception, attempts no retry (exactly one response is consumed from the
endpoint stream), and leaves the caller's conversation list unchanged. -/
theorem claim_C5 (conv : List Message) (e : PyError)
    (rest : List (Except PyError Completion)) (st : St)
    (hconv : conv ≠ []) (hchat : st.chat = Except.error e :: rest) :
    callGptList conv st = (Except.error e, conv, { st with chat := rest }) :=
  callGptList_err conv e rest st hconv hchat

/-- C5 (witness): concrete application of `claim_C5` — a network failure
comes back as-is and the conversation list still has exactly its original
message. -/
theorem claim_C5_witness :
    (callGptList [{ role := "user", content := toL "hi" }]
        (mkSt [Except.error (PyError.endpointError "connection reset")])).1
      = Except.error (PyError.endpointError "connection reset")
    ∧ (callGptList [{ role := "user", content := toL "hi" }]
        (mkSt [Except.error (PyError.endpointError "connection reset")])).2.1
      = [{ role := "user", content := toL "hi" }] := by
  have h := claim_C5 [{ role := "user", content := toL "hi" }]
    (PyError.endpointError "connection reset") []
    (mkSt [Except.error (PyError.endpointError "connection reset")])
    (by decide) rfl
  rw [h]
  exact ⟨rfl, rfl⟩

/-! Claim C7. -/

/-- C7: `_call_gpt` normalizes a bare string into a one-element transcript
holding a user-role message with that string as content, a single message
dict into the one-element transcript holding it, and runs a list argument
as-is — the caller's own list is the one extended. -/
theorem claim_C7 (s : PyStr) (m : Message) (l : List Message) (st : St) :
    callGpt (ConvInput.str s) st = callGptList [{ role := "user", content := s }] st
    ∧ callGpt (ConvInput.msg m) st = callGptList [m] st
    ∧ callGpt (ConvInput.list l) st = callGptList l st :=
  ⟨rfl, rfl, rfl⟩

/-! Claim C8. -/

set_option maxRecDepth 10000 in
/-- C8 (counterexample): the claim asserts the Reply always ends with the
fixed truncation notice after a `length` stop reason.  For an empty
fragment the final strip removes the notice's leading blank lines, so the
returned Reply is strictly shorter than the notice and cannot end with
it. -/
theorem claim_C8_counterexample :
    (callGptList [{ role := "user", content := toL "q" }]
        (mkSt [Except.ok { content := [], finish_reason := "length" }])).1
      = Except.ok (pyStrip ([] ++ truncationNotice))
    ∧ ¬ ∃ t, pyStrip ([] ++ truncationNotice) = t ++ truncationNotice := by
  constructor
  · rfl
  · rintro ⟨t, ht⟩
    have hlen := congrArg List.length ht
    rw [List.length_append] at hlen
    have h1 : (pyStrip (([] : PyStr) ++ truncationNotice)).length = 125 := by decide
    have h2 : truncationNotice.length = 127 := by decide
    rw [h1, h2] at hlen
    omega

set_option maxRecDepth 10000 in
/-- C8 (amended): when the endpoint reports `finish_reason "length"`, the
string returned by `_call_gpt` (and the assistant-message content appended
to the transcript) equals the single fragment with the fixed truncation
notice appended and the whole stripped of surrounding whitespace; the Reply
ends with the notice text whenever the fragment contains at least one
non-whitespace character. -/
theorem claim_C8 (conv : List Message) (content : PyStr)
    (rest : List (Except PyError Completion)) (st : St)
    (hconv : conv ≠ [])
    (hchat : st.chat
      = Except.ok { content := content, finish_reason := "length" } :: rest) :
    (callGptList conv st).1 = Except.ok (pyStrip (content ++ truncationNotice))
    ∧ (callGptList conv st).2.1
        = conv ++ [{ role := "assistant",
                     content := pyStrip (content ++ truncationNotice) }]
    ∧ ((∃ x ∈ content, pyIsSpace x = false) →
        ∃ t, pyStrip (content ++ truncationNotice) = t ++ truncationNotice) := by
  have hg : gptAnswer { content := content, finish_reason := "length" }
      = pyStrip (content ++ truncationNotice) := by
    simp [gptAnswer]
  refine ⟨?_, ?_, ?_⟩
  · rw [callGptList_ok conv _ rest st hconv hchat, hg]
  · rw [callGptList_ok conv _ rest st hconv hchat, hg]
  · intro hx
    refine ⟨pyStripLeft content, ?_⟩
    rw [pyStrip, pyStripLeft_append_of_nonspace truncationNotice content hx,
      pyStripRight_append_notail _ _ ')' (by decide) (by decide)]

/-- C8 (witness): concrete application of `claim_C8` — fragment `"abc"`
with a `length` stop reason yields a Reply ending in the truncation
notice. -/
theorem claim_C8_witness :
    ∃ t, pyStrip (toL "abc" ++ truncationNotice) = t ++ truncationNotice := by
  have h := claim_C8 [{ role := "user", content := toL "q" }] (toL "abc") []
    (mkSt [Except.ok { content := toL "abc", finish_reason := "length" }])
    (by decide) rfl
  exact h.2.2 ⟨'a', by decide⟩

/-! Claim C6. -/

/-- Result of the sanity check is the result of its body. -/
theorem sanitycheckUserCommand_fst (convoIntro : List Message) (st : St) :
    (sanitycheckUserCommand convoIntro st).1 = (sanitycheckBody convoIntro st).1 := by
  rcases h : sanitycheckBody convoIntro st with ⟨res, st'⟩
  simp [sanitycheckUserCommand, h]

/-- Result of the duration estimate is the result of its body. -/
theorem estimateReasonableTime_fst (convoIntro : List Message) (st : St) (secs : Int) :
    (estimateReasonableTime convoIntro st secs).1 = (estimateBody convoIntro st).1 := by
  rcases h : estimateBody convoIntro st with ⟨res, st'⟩
  simp [estimateReasonableTime, h]

/-- C6: whenever an expected sentinel substring is absent from the model's
reply, the operation raises a `RuntimeError` for that exchange:
`_sanitycheck_user_command` when `"ANSWER:"` is missing from the uppercased
intelligibility reply, or from the uppercased appropriateness reply, or when
`"REPHRASE:"` is missing from the rephrase reply; `_estimate_reasonable_time`
when `"ANSWER:"` is missing from the duration reply.  In each case an error
is the outcome and no value is returned. -/
theorem claim_C6 :
    (∀ (convoIntro : List Message) (st : St) (c₁ : Completion)
        (rest : List (Except PyError Completion)),
      st.chat = Except.ok c₁ :: rest →
      pyContains ansSentinel (pyUpper (gptAnswer c₁)) = false →
      (sanitycheckUserCommand convoIntro st).1
        = Except.error (PyError.runtimeError "Couldn't determine if command is intelligible"))
    ∧ (∀ (convoIntro : List Message) (st : St) (c₁ c₂ : Completion)
        (rest : List (Except PyError Completion)),
      st.chat = Except.ok c₁ :: Except.ok c₂ :: rest →
      pyContains ansSentinel (pyUpper (gptAnswer c₁)) = true →
      pyContains yesWord ((pySplit ansSentinel (pyUpper (gptAnswer c₁))).getD 1 []) = true →
      pyContains ansSentinel (pyUpper (gptAnswer c₂)) = false →
      (sanitycheckUserCommand convoIntro st).1
        = Except.error (PyError.runtimeError "Couldn't determine if command is appropriate"))
    ∧ (∀ (convoIntro : List Message) (st : St) (c₁ c₂ c₃ : Completion)
        (rest : List (Except PyError Completion)),
      st.chat = Except.ok c₁ :: Except.ok c₂ :: Except.ok c₃ :: rest →
      pyContains ansSentinel (pyUpper (gptAnswer c₁)) = true →
      pyContains yesWord ((pySplit ansSentinel (pyUpper (gptAnswer c₁))).getD 1 []) = true →
      pyContains ansSentinel (pyUpper (gptAnswer c₂)) = true →
      pyContains yesWord ((pySplit ansSentinel (pyUpper (gptAnswer c₂))).getD 1 []) = false →
      pyContains rephraseSentinel (gptAnswer c₃) = false →
      (sanitycheckUserCommand convoIntro st).1
        = Except.error (PyError.runtimeError "Couldn't rephrase command into something appropriate"))
    ∧ (∀ (convoIntro : List Message) (st : St) (c : Completion)
        (rest : List (Except PyError Completion)) (secs : Int),
      st.chat = Except.ok c :: rest →
      pyContains ansSentinel (gptAnswer c) = false →
      (estimateReasonableTime convoIntro st secs).1
        = Except.error (PyError.runtimeError "Couldn't determine a reasonable duration estimate")) := by
  refine ⟨?_, ?_, ?_, ?_⟩
  · intro convoIntro st c₁ rest h1 h2
    rw [sanitycheckUserCommand_fst]
    rw [sanitycheckBody,
      callGptList_ok _ c₁ rest st (by simp) h1]
    simp [h2]
  · intro convoIntro st c₁ c₂ rest h1 h2 h3 h4
    rw [sanitycheckUserCommand_fst]
    rw [sanitycheckBody,
      callGptList_ok _ c₁ (Except.ok c₂ :: rest) st (by simp) h1]
    simp only [h2, Bool.not_true, Bool.false_eq_true, if_false, h3, if_true]
    rw [callGptList_ok _ c₂ rest _ (by simp) rfl]
    simp [h4]
  · intro convoIntro st c₁ c₂ c₃ rest h1 h2 h3 h4 h5 h6
    rw [sanitycheckUserCommand_fst]
    rw [sanitycheckBody,
      callGptList_ok _ c₁ (Except.ok c₂ :: Except.ok c₃ :: rest) st (by simp) h1]
    simp only [h2, Bool.not_true, Bool.false_eq_true, if_false, h3, if_true]
    rw [callGptList_ok _ c₂ (Except.ok c₃ :: rest) _ (by simp) rfl]
    simp only [h4, Bool.not_true, Bool.false_eq_true, if_false, h5, if_true]
    rw [callGptList_ok _ c₃ rest _ (by simp) rfl]
    simp [h6]
  · intro convoIntro st c rest secs h1 h2
    rw [estimateReasonableTime_fst]
    rw [estimateBody,
      callGptList_ok _ c rest st (by simp) h1]
    simp [h2]

/-- C6 (witness): concrete applications of `claim_C6` — replies without the
expected sentinels make the sanity check and the duration estimate come back
as `RuntimeError`s. -/
theorem claim_C6_witness :
    (sanitycheckUserCommand [{ role := "user", content := toL "q" }]
        (mkSt [Except.ok { content := toL "no marker here", finish_reason := "stop" }])).1
      = Except.error (PyError.runtimeError "Couldn't determine if command is intelligible")
    ∧ (sanitycheckUserCommand [{ role := "user", content := toL "q" }]
        (mkSt [Except.ok { content := toL "ANSWER: YES", finish_reason := "stop" },
               Except.ok { content := toL "whatever", finish_reason := "stop" }])).1
      = Except.error (PyError.runtimeError "Couldn't determine if command is appropriate")
    ∧ (sanitycheckUserCommand [{ role := "user", content := toL "q" }]
        (mkSt [Except.ok { content := toL "ANSWER: YES", finish_reason := "stop" },
               Except.ok { content := toL "ANSWER: NO", finish_reason := "stop" },
               Except.ok { content := toL "nothing here", finish_reason := "stop" }])).1
      = Except.error (PyError.runtimeError "Couldn't rephrase command into something appropriate")
    ∧ (estimateReasonableTime [{ role := "user", content := toL "q" }]
        (mkSt [Except.ok { content := toL "no estimate marker", finish_reason := "stop" }]) 0).1
      = Except.error (PyError.runtimeError "Couldn't determine a reasonable duration estimate") :=
  ⟨claim_C6.1 _ _ _ _ rfl (by decide),
   claim_C6.2.1 _ _ _ _ _ rfl (by decide) (by decide) (by decide),
   claim_C6.2.2.1 _ _ _ _ _ _ rfl (by decide) (by decide) (by decide) (by decide) (by decide),
   claim_C6.2.2.2 _ _ _ _ 0 rfl (by decide)⟩

/-! Claim C10. -/

/-- Looking up the key just set returns the value just set. -/
theorem dictGet_dictSet_same (d : Jobj) (k : String) (v : JVal) :
    dictGet (dictSet d k v) k = some v := by
  induction d with
  | nil => simp [dictSet, dictGet, List.find?]
  | cons p rest ih =>
    rcases p with ⟨k', v'⟩
    by_cases h : k' == k
    · simp [dictSet, h, dictGet, List.find?]
    · simp only [dictSet, h, Bool.false_eq_true, if_false]
      simp only [dictGet, List.find?, h]
      simpa [dictGet] using ih

/-- Setting one key leaves lookups of other keys unchanged. -/
theorem dictGet_dictSet_ne (d : Jobj) (k k2 : String) (v : JVal) (h : (k == k2) = false) :
    dictGet (dictSet d k v) k2 = dictGet d k2 := by
  induction d with
  | nil => simp [dictSet, dictGet, List.find?, h]
  | cons p rest ih =>
    rcases p with ⟨k', v'⟩
    by_cases hk : k' == k
    · have hk' : k' = k := by simpa using hk
      simp [dictSet, hk, dictGet, List.find?, hk', h]
    · simp only [dictSet, hk, Bool.false_eq_true, if_false]
      by_cases h2 : k' == k2
      · simp [dictGet, List.find?, h2]
      · simp only [dictGet, List.find?, h2]
        simpa [dictGet] using ih

/-- The branch test of `_run_one_research_task` succeeds on the matching
type tag. -/
theorem jOptEqStr_same (s : String) : jOptEqStr (some (JVal.str (toL s))) s = true := by
  simp [jOptEqStr]

/-- JSON object rendering is never the empty string. -/
theorem jDumps_obj_ne_nil (f : Jobj) : jDumps (JVal.obj f) ≠ [] := by
  cases f with
  | nil => simp [jDumps, jDumpsV]
  | cons g gs => simp [jDumps, jDumpsV]

/-- C10: `_run_one_research_task` catches every collaborator failure for the
`"url"` and `"serpapi_call"` task types (the fetch and search streams may
hand it an exception; the function still returns a plain pair); it returns
`True` exactly when it has set `task["success"] = True` together with a
non-empty `task["result"]`; on every `False` return for these two task types
it has set `task["success"] = False` and a non-empty explanatory
`task["error"]`; for any other task type it returns `False` with the task
dict and the collaborator streams untouched. -/
theorem claim_C10 :
    (∀ (task : Jobj) (st : St),
      dictGet task "task_type" = some (JVal.str (toL "url")) →
      ((runOneResearchTask task st).2.1 = true →
        dictGet (runOneResearchTask task st).1 "success" = some (JVal.bool true)
        ∧ ∃ r, dictGet (runOneResearchTask task st).1 "result" = some (JVal.str r) ∧ r ≠ [])
      ∧ ((runOneResearchTask task st).2.1 = false →
        dictGet (runOneResearchTask task st).1 "success" = some (JVal.bool false)
        ∧ ∃ er, dictGet (runOneResearchTask task st).1 "error" = some (JVal.str er) ∧ er ≠ []))
    ∧ (∀ (task : Jobj) (st : St),
      dictGet task "task_type" = some (JVal.str (toL "serpapi_call")) →
      ((runOneResearchTask task st).2.1 = true →
        dictGet (runOneResearchTask task st).1 "success" = some (JVal.bool true)
        ∧ ∃ r, dictGet (runOneResearchTask task st).1 "result" = some (JVal.str r) ∧ r ≠ [])
      ∧ ((runOneResearchTask task st).2.1 = false →
        dictGet (runOneResearchTask task st).1 "success" = some (JVal.bool false)
        ∧ ∃ er, dictGet (runOneResearchTask task st).1 "error" = some (JVal.str er) ∧ er ≠ []))
    ∧ (∀ (task : Jobj) (st : St),
      jOptEqStr (dictGet task "task_type") "url" = false →
      jOptEqStr (dictGet task "task_type") "serpapi_call" = false →
      runOneResearchTask task st = (task, false, st)) := by
  refine ⟨?_, ?_, ?_⟩
  · intro task st h
    have hbranch : jOptEqStr (dictGet task "task_type") "url" = true := by
      rw [h]; exact jOptEqStr_same _
    by_cases hurl : pyTruthyOpt (dictGet task "url") = true
    · rcases hf : st.fetches with _ | ⟨resp, fr⟩
      · have heq : runOneResearchTask task st
            = (dictSet (dictSet task "success" (JVal.bool false)) "error"
                (JVal.str (toL "Exception while fetching url "
                  ++ pyStrOfOpt (dictGet task "url") ++ toL ": "
                  ++ pyErrStr (PyError.endpointError "no response"))),
               false, { st with fetches := [] }) := by
          simp [runOneResearchTask, hbranch, hurl, hf, popStream]
        rw [heq]
        refine ⟨fun hb => by simp at hb, fun _ => ⟨?_, ?_⟩⟩
        · rw [dictGet_dictSet_ne _ _ _ _ (by decide), dictGet_dictSet_same]
        · refine ⟨_, dictGet_dictSet_same _ _ _, ?_⟩
          exact List.append_ne_nil_of_left_ne_nil
            (List.append_ne_nil_of_left_ne_nil
              (List.append_ne_nil_of_left_ne_nil (by decide) _) _) _
      · cases resp with
        | error ex =>
          have heq : runOneResearchTask task st
              = (dictSet (dictSet task "success" (JVal.bool false)) "error"
                  (JVal.str (toL "Exception while fetching url "
                    ++ pyStrOfOpt (dictGet task "url") ++ toL ": " ++ pyErrStr ex)),
                 false, { st with fetches := fr }) := by
            simp [runOneResearchTask, hbranch, hurl, hf, popStream]
          rw [heq]
          refine ⟨fun hb => by simp at hb, fun _ => ⟨?_, ?_⟩⟩
          · rw [dictGet_dictSet_ne _ _ _ _ (by decide), dictGet_dictSet_same]
          · refine ⟨_, dictGet_dictSet_same _ _ _, ?_⟩
            exact List.append_ne_nil_of_left_ne_nil
              (List.append_ne_nil_of_left_ne_nil
                (List.append_ne_nil_of_left_ne_nil (by decide) _) _) _
        | ok result =>
          by_cases hres : result.isEmpty = true
          · have heq : runOneResearchTask task st
                = (dictSet (dictSet task "success" (JVal.bool false)) "error"
                    (JVal.str (toL "Fetch of " ++ pyStrOfOpt (dictGet task "url")
                      ++ toL " produced empty/invalid result")),
                   false, { st with fetches := fr }) := by
              simp [runOneResearchTask, hbranch, hurl, hf, popStream, hres]
            rw [heq]
            refine ⟨fun hb => by simp at hb, fun _ => ⟨?_, ?_⟩⟩
            · rw [dictGet_dictSet_ne _ _ _ _ (by decide), dictGet_dictSet_same]
            · refine ⟨_, dictGet_dictSet_same _ _ _, ?_⟩
              exact List.append_ne_nil_of_left_ne_nil
                (List.append_ne_nil_of_left_ne_nil (by decide) _) _
          · have heq : runOneResearchTask task st
                = (dictSet (dictSet task "success" (JVal.bool true)) "result"
                    (JVal.str result), true, { st with fetches := fr }) := by
              simp [runOneResearchTask, hbranch, hurl, hf, popStream, hres]
            rw [heq]
            refine ⟨fun _ => ⟨?_, ?_⟩, fun hb => by simp at hb⟩
            · rw [dictGet_dictSet_ne _ _ _ _ (by decide), dictGet_dictSet_same]
            · refine ⟨result, dictGet_dictSet_same _ _ _, ?_⟩
              intro hnil
              rw [hnil] at hres
              simp at hres
    · have heq : runOneResearchTask task st
          = (dictSet (dictSet task "success" (JVal.bool false)) "error"
              (JVal.str (toL "URL not provided")), false, st) := by
        simp [runOneResearchTask, hbranch, hurl]
      rw [heq]
      refine ⟨fun hb => by simp at hb, fun _ => ⟨?_, ?_⟩⟩
      · rw [dictGet_dictSet_ne _ _ _ _ (by decide), dictGet_dictSet_same]
      · exact ⟨_, dictGet_dictSet_same _ _ _, by decide⟩
  · intro task st h
    have hbranch : jOptEqStr (dictGet task "task_type") "serpapi_call" = true := by
      rw [h]; exact jOptEqStr_same _
    have hnoturl : jOptEqStr (dictGet task "task_type") "url" = false := by
      rw [h]; decide
    by_cases hpar : pyTruthyOpt (dictGet task "params") = true
    · rcases hf : st.searches with _ | ⟨resp, sr⟩
      · have heq : runOneResearchTask task st
            = (dictSet (dictSet task "success" (JVal.bool false)) "error"
                (JVal.str (toL "Exception while performing SerpApi query: "
                  ++ pyErrStr (PyError.endpointError "no response"))),
               false, { st with searches := [] }) := by
          simp [runOneResearchTask, hbranch, hnoturl, hpar, hf, popStream]
        rw [heq]
        refine ⟨fun hb => by simp at hb, fun _ => ⟨?_, ?_⟩⟩
        · rw [dictGet_dictSet_ne _ _ _ _ (by decide), dictGet_dictSet_same]
        · refine ⟨_, dictGet_dictSet_same _ _ _, ?_⟩
          exact List.append_ne_nil_of_left_ne_nil (by decide) _
      · cases resp with
        | error ex =>
          have heq : runOneResearchTask task st
              = (dictSet (dictSet task "success" (JVal.bool false)) "error"
                  (JVal.str (toL "Exception while performing SerpApi query: "
                    ++ pyErrStr ex)),
                 false, { st with searches := sr }) := by
            simp [runOneResearchTask, hbranch, hnoturl, hpar, hf, popStream]
          rw [heq]
          refine ⟨fun hb => by simp at hb, fun _ => ⟨?_, ?_⟩⟩
          · rw [dictGet_dictSet_ne _ _ _ _ (by decide), dictGet_dictSet_same]
          · refine ⟨_, dictGet_dictSet_same _ _ _, ?_⟩
            exact List.append_ne_nil_of_left_ne_nil (by decide) _
        | ok result =>
          have heq : runOneResearchTask task st
              = (dictSet (dictSet task "success" (JVal.bool true)) "result"
                  (JVal.str (jDumps (JVal.obj (CLEANUP_FIELDS.foldl
                    (fun d field =>
                      if (dictGet d field).isSome then dictDel d field else d) result)))),
                 true, { st with searches := sr }) := by
            simp [runOneResearchTask, hbranch, hnoturl, hpar, hf, popStream]
          rw [heq]
          refine ⟨fun _ => ⟨?_, ?_⟩, fun hb => by simp at hb⟩
          · rw [dictGet_dictSet_ne _ _ _ _ (by decide), dictGet_dictSet_same]
          · exact ⟨_, dictGet_dictSet_same _ _ _, jDumps_obj_ne_nil _⟩
    · have heq : runOneResearchTask task st
          = (dictSet (dictSet task "success" (JVal.bool false)) "error"
              (JVal.str (toL "SerpApi params not provided")), false, st) := by
        simp [runOneResearchTask, hbranch, hnoturl, hpar]
      rw [heq]
      refine ⟨fun hb => by simp at hb, fun _ => ⟨?_, ?_⟩⟩
      · rw [dictGet_dictSet_ne _ _ _ _ (by decide), dictGet_dictSet_same]
      · exact ⟨_, dictGet_dictSet_same _ _ _, by decide⟩
  · intro task st h1 h2
    simp [runOneResearchTask, h1, h2]

/-- C10 (witness): concrete applications of `claim_C10` — a successful
fetch yields `True` with a stored non-empty result; a failing search yields
`False` with `success = False` and an explanatory error; an unknown task
type changes nothing. -/
theorem claim_C10_witness :
    (dictGet (runOneResearchTask
        [("task_type", JVal.str (toL "url")), ("url", JVal.str (toL "http://x"))]
        { chat := [], chatJson := [], fetches := [Except.ok (toL "page text")],
          searches := [], stdout := [] }).1 "success" = some (JVal.bool true))
    ∧ (dictGet (runOneResearchTask
        [("task_type", JVal.str (toL "serpapi_call")),
         ("params", JVal.obj [("q", JVal.str (toL "coffee"))])]
        { chat := [], chatJson := [], fetches := [],
          searches := [Except.error (PyError.endpointError "quota exceeded")],
          stdout := [] }).1 "success" = some (JVal.bool false))
    ∧ runOneResearchTask [("task_type", JVal.str (toL "mystery"))] (mkSt [])
        = ([("task_type", JVal.str (toL "mystery"))], false, mkSt []) := by
  refine ⟨?_, ?_, ?_⟩
  · exact ((claim_C10.1
      [("task_type", JVal.str (toL "url")), ("url", JVal.str (toL "http://x"))]
      { chat := [], chatJson := [], fetches := [Except.ok (toL "page text")],
        searches := [], stdout := [] } rfl).1 rfl).1
  · exact ((claim_C10.2.1
      [("task_type", JVal.str (toL "serpapi_call")),
       ("params", JVal.obj [("q", JVal.str (toL "coffee"))])]
      { chat := [], chatJson := [], fetches := [],
        searches := [Except.error (PyError.endpointError "quota exceeded")],
        stdout := [] } rfl).2 rfl).1
  · exact claim_C10.2.2 [("task_type", JVal.str (toL "mystery"))] (mkSt [])
      (by decide) (by decide)

/-! Claims C4 and C9. -/

/-- Caller-visible `convo_intro` after the sanity check is the input (the
function deep-copies). -/
theorem sanitycheckUserCommand_snd (c : List Message) (st : St) :
    (sanitycheckUserCommand c st).2.1 = c := by
  rcases h : sanitycheckBody c st with ⟨res, st'⟩
  simp [sanitycheckUserCommand, h]

/-- Caller-visible `convo_intro` after the duration estimate is the input. -/
theorem estimateReasonableTime_snd (c : List Message) (st : St) (secs : Int) :
    (estimateReasonableTime c st secs).2.1 = c := by
  rcases h : estimateBody c st with ⟨res, st'⟩
  simp [estimateReasonableTime, h]

/-- Caller-visible `convo_intro` after the research cycle is the input. -/
theorem researchCycle_snd (c : List Message) (tss cs : PyStr)
    (pages searches : List Jobj) (serp : String) (st : St) :
    (researchCycle c tss cs pages searches serp st).2.1 = c := by
  rcases h : researchCycleBody c tss cs serp st with ⟨res, st'⟩
  simp [researchCycle, h]

/-- The continuation of `infoservant` after the sanity check only appends to
the transcript it receives. -/
theorem infoservantRest_growth (command : PyStr) (convo : List Message)
    (serp : String) (secs : Int) (tss cs : PyStr) (st : St) :
    ∃ t, (infoservantRest command convo serp secs tss cs st).2.1 = convo ++ t := by
  obtain ⟨base, hbase⟩ : ∃ b,
      (if (secs != 0) = true then
        convo ++ [{ role := "system", content := toL (secondsMessage secs) }]
      else convo) = convo ++ b := by
    by_cases h : (secs != 0) = true
    · exact ⟨[{ role := "system", content := toL (secondsMessage secs) }], by rw [if_pos h]⟩
    · exact ⟨[], by rw [if_neg h, List.append_nil]⟩
  unfold infoservantRest
  rw [hbase]
  simp only []
  split
  next e cv1 st1 heq1 =>
    obtain ⟨t1, ht1⟩ := callGptList_growth _ st
    rw [heq1] at ht1
    simp only at ht1
    exact ⟨base ++ ([{ role := "system", content := toL expectationsPrompt }] ++ t1),
      by simp [ht1, List.append_assoc]⟩
  next reply1 cv1 st1 heq1 =>
    obtain ⟨t1, ht1⟩ := callGptList_growth _ st
    rw [heq1] at ht1
    simp only at ht1
    split
    next e cv2 st2 heq2 =>
      have hcv2 : cv2 = cv1 := by
        have h := estimateReasonableTime_snd cv1 st1 0
        rw [heq2] at h
        exact h
      exact ⟨base ++ ([{ role := "system", content := toL expectationsPrompt }] ++ t1),
        by simp [hcv2, ht1, List.append_assoc]⟩
    next timedur_est cv2 st2 heq2 =>
      have hcv2 : cv2 = cv1 := by
        have h := estimateReasonableTime_snd cv1 st1 0
        rw [heq2] at h
        exact h
      split
      next e cv3 st3 heq3 =>
        have hcv3 := researchCycle_snd (cv2 ++ [timedurMessage timedur_est])
          tss cs [] [] serp st2
        rw [heq3] at hcv3
        simp only at hcv3
        exact ⟨base ++ ([{ role := "system", content := toL expectationsPrompt }]
            ++ (t1 ++ [timedurMessage timedur_est])),
          by simp [hcv3, hcv2, ht1, List.append_assoc]⟩
      next c cv3 st3 heq3 =>
        have hcv3 := researchCycle_snd (cv2 ++ [timedurMessage timedur_est])
          tss cs [] [] serp st2
        rw [heq3] at hcv3
        simp only at hcv3
        exact ⟨base ++ ([{ role := "system", content := toL expectationsPrompt }]
            ++ (t1 ++ [timedurMessage timedur_est])),
          by simp [hcv3, hcv2, ht1, List.append_assoc]⟩
      next a cv3 st3 heq3 =>
        have hcv3 := researchCycle_snd (cv2 ++ [timedurMessage timedur_est])
          tss cs [] [] serp st2
        rw [heq3] at hcv3
        simp only at hcv3
        exact ⟨base ++ ([{ role := "system", content := toL expectationsPrompt }]
            ++ (t1 ++ [timedurMessage timedur_est])),
          by simp [hcv3, hcv2, ht1, List.append_assoc]⟩

/-- C4 (counterexample): the claim asserts that after the sanity-check step
the transcript built by `infoservant` still contains its original messages
with their original content.  On a run whose sanity check deems the command
inappropriate and produces the rephrase `"look up X"`, the user message's
content is overwritten in place: the transcript position 2 holds the
rephrase and the original user message `"do X"` is nowhere in the
transcript. -/
theorem claim_C4_counterexample :
    ((infoservant (PyObj.ofStr (toL "do X")) "" 0 [] []
        (mkSt [Except.ok { content := toL "hm ANSWER: YES", finish_reason := "stop" },
               Except.ok { content := toL "hm ANSWER: NO", finish_reason := "stop" },
               Except.ok { content := toL "REPHRASE: look up X", finish_reason := "stop" },
               Except.error (PyError.endpointError "network down")])).2.1)[2]?
      = some { role := "user", content := toL "look up X" }
    ∧ ({ role := "user", content := toL "do X" } : Message)
        ∉ (infoservant (PyObj.ofStr (toL "do X")) "" 0 [] []
            (mkSt [Except.ok { content := toL "hm ANSWER: YES", finish_reason := "stop" },
                   Except.ok { content := toL "hm ANSWER: NO", finish_reason := "stop" },
                   Except.ok { content := toL "REPHRASE: look up X", finish_reason := "stop" },
                   Except.error (PyError.endpointError "network down")])).2.1 := by
  constructor
  · rfl
  · decide

/-- C4 (amended): within one exchange the conversation transcript only grows
at its end — `_call_gpt` appends its assistant message after the existing
messages, and the steps of `infoservant` following the sanity check only
append — except that when the sanity check returns a nonempty rephrase,
`infoservant` overwrites the content of the transcript's third message (the
user command) with that rephrase, so the original user message content is
not preserved in that case. -/
theorem claim_C4 :
    (∀ (conv : List Message) (st : St), ∃ t, (callGptList conv st).2.1 = conv ++ t)
    ∧ (∀ (command : PyStr) (convo : List Message) (serp : String) (secs : Int)
        (tss cs : PyStr) (st : St),
        ∃ t, (infoservantRest command convo serp secs tss cs st).2.1 = convo ++ t)
    ∧ (∀ (command : PyStr) (serp : String) (secs : Int) (tss cs : PyStr)
        (st : St) (r : PyStr),
        (pyStrip command).isEmpty = false →
        (sanitycheckBody (initialConvo (pyStrip (pyStrip command)) serp) st).1
          = Except.ok r →
        r ≠ [] →
        ((infoservant (PyObj.ofStr command) serp secs tss cs st).2.1)[2]?
          = some { role := "user", content := r }) := by
  refine ⟨callGptList_growth, infoservantRest_growth, ?_⟩
  intro command serp secs tss cs st r h0 hs hr
  unfold infoservant
  simp only [h0, Bool.false_eq_true, if_false]
  rcases hsan : sanitycheckUserCommand (initialConvo (pyStrip (pyStrip command)) serp) st
    with ⟨sres, scv, sst⟩
  have hres : sres = Except.ok r := by
    have := sanitycheckUserCommand_fst (initialConvo (pyStrip (pyStrip command)) serp) st
    rw [hsan, hs] at this
    exact this
  have hscv : scv = initialConvo (pyStrip (pyStrip command)) serp := by
    have := sanitycheckUserCommand_snd (initialConvo (pyStrip (pyStrip command)) serp) st
    rw [hsan] at this
    exact this
  rw [hres]
  have hre : r.isEmpty = false := by
    cases hrr : r.isEmpty
    · rfl
    · exact absurd (by simpa using hrr) hr
  simp only [hre, Bool.not_false, if_true]
  obtain ⟨t, ht⟩ := infoservantRest_growth r (modifyContent 2 r scv) serp secs tss cs sst
  rw [ht, hscv]
  simp [modifyContent, initialConvo]

/-- C4 (witness): concrete application of `claim_C4` — on the same scenario
as the counterexample, the third transcript message's content is the
rephrase returned by the sanity check. -/
theorem claim_C4_witness :
    ((infoservant (PyObj.ofStr (toL "do X")) "" 0 [] []
        (mkSt [Except.ok { content := toL "hm ANSWER: YES", finish_reason := "stop" },
               Except.ok { content := toL "hm ANSWER: NO", finish_reason := "stop" },
               Except.ok { content := toL "REPHRASE: look up X", finish_reason := "stop" },
               Except.error (PyError.endpointError "network down")])).2.1)[2]?
      = some { role := "user", content := toL "look up X" } :=
  claim_C4.2.2 (toL "do X") "" 0 [] []
    (mkSt [Except.ok { content := toL "hm ANSWER: YES", finish_reason := "stop" },
           Except.ok { content := toL "hm ANSWER: NO", finish_reason := "stop" },
           Except.ok { content := toL "REPHRASE: look up X", finish_reason := "stop" },
           Except.error (PyError.endpointError "network down")])
    (toL "look up X") (by decide) rfl (by decide)

/-- C9: `infoservant` validates its command before any external effect — a
non-string command raises `ValueError`, and a string that is empty after
stripping raises `ValueError`, in both cases with every collaborator stream
(completion endpoint, page fetch, search) left untouched. -/
theorem claim_C9 (typeName serp : String) (s tss cs : PyStr) (secs : Int) (st : St) :
    infoservant (PyObj.nonStr typeName) serp secs tss cs st
      = (Outcome.raised (PyError.valueError
          ("command must be a string (got " ++ typeName ++ " instead)")), [], st)
    ∧ ((pyStrip s).isEmpty = true →
        infoservant (PyObj.ofStr s) serp secs tss cs st
          = (Outcome.raised (PyError.valueError "Got empty string for command"), [], st)) := by
  constructor
  · rfl
  · intro h
    simp [infoservant, h]

/-- C9 (witness): concrete application of `claim_C9` — an integer command
and a whitespace-only command both come back as `ValueError` with the
world untouched. -/
theorem claim_C9_witness :
    infoservant (PyObj.nonStr "int") "" 0 [] [] (mkSt [])
      = (Outcome.raised (PyError.valueError
          "command must be a string (got int instead)"), [], mkSt [])
    ∧ infoservant (PyObj.ofStr (toL "   ")) "" 0 [] [] (mkSt [])
      = (Outcome.raised (PyError.valueError "Got empty string for command"), [], mkSt []) :=
  ⟨(claim_C9 "int" "" (toL "   ") [] [] 0 (mkSt [])).1,
   (claim_C9 "int" "" (toL "   ") [] [] 0 (mkSt [])).2 (by decide)⟩

end Infoservant
